import Mathlib

/-!
# Verification of the Whisper transcription API server (src/api.py)

Shallow embedding of the request handling code of `src/api.py`:

* `TranscribeRequest` mirrors the pydantic request model (line 41).
* `buildOptions` mirrors the options-bag construction (lines 142-150).
* `send_webhook` mirrors lines 85-91; the outbound HTTP POST is a
  parameter `deliver`, and the request it issues (URL, JSON body, timeout)
  is returned explicitly.
* `process_transcription` mirrors lines 94-118; the model's `transcribe`
  call is a parameter `model` returning `Except` (a raised exception is
  `.error`).  The Python `try`/`except` blocks become matches on the
  `Except` values; a function's own result type is `Except` so that an
  exception escaping it would show up as `.error`.
* `transcribe_audio` mirrors lines 121-180: the POST /transcribe handler.
* `validateRequest`/`postTranscribe` model pydantic's validation layer in
  front of the handler.

Effects are made explicit: each function returns, next to its value, the
list of model invocations, scheduled background tasks, outbound webhook
requests and log lines it performs, so the theorems can speak about
"exactly one webhook POST", "no model call", etc.
-/

/-- A transcription segment: the model library returns schema-free
records; they are passed through untouched, so an opaque key/value
mapping suffices. -/
abbrev Segment := List (String × String)

/-- Result of a successful `model.transcribe` call: the keys the server
reads (`result["text"]`, `result["language"]`, `result["segments"]`). -/
structure WhisperResult where
  text : String
  language : String
  segments : List Segment
deriving DecidableEq, Repr

/-- A value stored in the options bag passed to `model.transcribe`
(Python dict values: strings, booleans, floats). Temperature is a float
in Python; the server never computes with it, only passes it through,
so an exact rational carrier is faithful. -/
inductive OptVal
  | str (s : String)
  | bool (b : Bool)
  | num (q : Rat)
deriving DecidableEq, Repr

/-- A Python dict used as keyword options: an ordered association list. -/
abbrev Options := List (String × OptVal)

/-- A value in a JSON webhook payload: the payload dicts built at
lines 103-108 and 114-117 hold strings and the segments list. -/
inductive FieldVal
  | str (s : String)
  | segs (l : List Segment)
deriving DecidableEq, Repr

/-- A JSON object sent to a webhook. -/
abbrev Payload := List (String × FieldVal)

/-- The validated request model `TranscribeRequest` (src/api.py lines
41-48).  `url` and `webhook_url` hold the string form of the validated
`HttpUrl` values; `language` and `webhook_url` are `None` when absent. -/
structure TranscribeRequest where
  url : String
  language : Option String := none
  task : String := "transcribe"
  word_timestamps : Bool := false
  temperature : Rat := 0
  webhook_url : Option String := none
deriving DecidableEq, Repr

/-- Python truthiness of an `Optional[str]`: `None` and `""` are falsy
(used by `if request.language:` at line 149 and `if webhook_url:` at
lines 101/112). -/
def optStrTruthy : Option String → Bool
  | none => false
  | some s => !s.isEmpty

/-- The options bag built by `transcribe_audio` (src/api.py lines
142-150): always `task`, `word_timestamps`, `temperature`; `language`
appended only when `request.language` is truthy. -/
def buildOptions (request : TranscribeRequest) : Options :=
  let options : Options :=
    [("task", OptVal.str request.task),
     ("word_timestamps", OptVal.bool request.word_timestamps),
     ("temperature", OptVal.num request.temperature)]
  if optStrTruthy request.language then
    options ++ [("language", OptVal.str (request.language.getD ""))]
  else
    options

/-- A call of `model.transcribe(audio_url, **options)`. -/
structure ModelCall where
  audio_url : String
  options : Options
deriving DecidableEq, Repr

/-- The single outbound HTTP POST performed by `send_webhook`
(src/api.py line 88): target URL, JSON body, timeout in seconds. -/
structure WebhookRequest where
  url : String
  body : Payload
  timeout : Nat
deriving DecidableEq, Repr

/-- Log level of a `logger.info` / `logger.error` line. -/
inductive LogLevel
  | info
  | error
deriving DecidableEq, Repr

/-- One emitted log line. -/
structure LogEntry where
  level : LogLevel
  msg : String
deriving DecidableEq, Repr

/-- `send_webhook(webhook_url, data)` (src/api.py lines 85-91).
`deliver` stands for `requests.post`: it yields the response status code
or `.error` when the POST raises.  Returns the webhook requests issued
and the log lines; the result type is `Except` so that an exception
escaping the function would be `.error` — the `try`/`except` makes both
arms return normally. -/
def send_webhook (deliver : WebhookRequest → Except String Nat)
    (webhook_url : String) (data : Payload) :
    Except String (List WebhookRequest × List LogEntry) :=
  let req : WebhookRequest := ⟨webhook_url, data, 10⟩
  match deliver req with
  | .ok status =>
      .ok ([req],
        [⟨.info, "Webhook sent to " ++ webhook_url ++ ", status: "
            ++ toString status⟩])
  | .error e =>
      .ok ([req], [⟨.error, "Failed to send webhook: " ++ e⟩])

/-- The success payload built at src/api.py lines 103-108. -/
def webhook_data (result : WhisperResult) : Payload :=
  [("status", FieldVal.str "completed"),
   ("text", FieldVal.str result.text),
   ("language", FieldVal.str result.language),
   ("segments", FieldVal.segs result.segments)]

/-- The error payload built at src/api.py lines 114-117. -/
def error_data (e : String) : Payload :=
  [("status", FieldVal.str "error"),
   ("error", FieldVal.str e)]

/-- Effects of one run of the background job: model calls made, webhook
requests attempted, log lines written. -/
structure JobOutput where
  modelCalls : List ModelCall
  webhookRequests : List WebhookRequest
  logs : List LogEntry
deriving DecidableEq, Repr

/-- The `except Exception as e:` clause of `process_transcription`
(src/api.py lines 110-118): log the error, and when `webhook_url` is
truthy send the error payload. -/
def pt_except (deliver : WebhookRequest → Except String Nat)
    (call : ModelCall) (webhook_url : Option String) (e : String) :
    Except String JobOutput :=
  let errLog : LogEntry := ⟨.error, "Background transcription error: " ++ e⟩
  if optStrTruthy webhook_url then
    match send_webhook deliver (webhook_url.getD "") (error_data e) with
    | .ok (reqs, wlogs) => .ok ⟨[call], reqs, errLog :: wlogs⟩
    | .error e2 => .error e2
  else
    .ok ⟨[call], [], [errLog]⟩

/-- `process_transcription(audio_url, options, webhook_url)` (src/api.py
lines 94-118).  The `model` parameter stands for `model.transcribe`
(`.error` when it raises).  The whole `try` body — model call, success
log, webhook send — falls to `pt_except` on failure; an exception
escaping the function itself would be `.error`. -/
def process_transcription (model : String → Options → Except String WhisperResult)
    (deliver : WebhookRequest → Except String Nat)
    (audio_url : String) (options : Options) (webhook_url : Option String) :
    Except String JobOutput :=
  let startLog : LogEntry :=
    ⟨.info, "Background transcription started for: " ++ audio_url⟩
  let call : ModelCall := ⟨audio_url, options⟩
  match model audio_url options with
  | .ok result =>
      let doneLog : LogEntry :=
        ⟨.info, "Background transcription completed. Language: "
            ++ result.language⟩
      if optStrTruthy webhook_url then
        match send_webhook deliver (webhook_url.getD "") (webhook_data result) with
        | .ok (reqs, wlogs) =>
            .ok ⟨[call], reqs, startLog :: doneLog :: wlogs⟩
        | .error e => pt_except deliver call webhook_url e
      else
        .ok ⟨[call], [], [startLog, doneLog]⟩
  | .error e => pt_except deliver call webhook_url e

/-- A background task scheduled via `background_tasks.add_task(
process_transcription, str(request.url), options, str(request.webhook_url))`
(src/api.py lines 154-159). -/
structure BackgroundTask where
  audio_url : String
  options : Options
  webhook_url : String
deriving DecidableEq, Repr

/-- The body of a successful synchronous response (`TranscribeResponse`,
src/api.py lines 51-55). -/
structure TranscribeResponse where
  text : String
  language : String
  segments : List Segment
deriving DecidableEq, Repr

/-- The HTTP outcome of POST /transcribe: async acknowledgement
(`AsyncTranscribeResponse`), success body, `HTTPException`, or a pydantic
validation rejection naming the offending field. -/
inductive HandlerResponse
  | async (status : String) (message : String)
  | ok (resp : TranscribeResponse)
  | httpError (code : Nat) (detail : String)
  | validationError (field : String)
deriving DecidableEq, Repr

/-- Effects and response of one handler invocation. -/
structure HandlerOutput where
  response : HandlerResponse
  tasks : List BackgroundTask
  modelCalls : List ModelCall
deriving DecidableEq, Repr

/-- `transcribe_audio(request, background_tasks)` (src/api.py lines
121-180) on an already-validated request.  `if request.webhook_url:`
tests an `Optional[HttpUrl]`; a validated `HttpUrl` object is always
truthy, so this is a match on presence. -/
def transcribe_audio (model : String → Options → Except String WhisperResult)
    (request : TranscribeRequest) : HandlerOutput :=
  let options := buildOptions request
  match request.webhook_url with
  | some wh =>
      { response := .async "accepted"
          "Transcription started, result will be sent to webhook"
        tasks := [⟨request.url, options, wh⟩]
        modelCalls := [] }
  | none =>
      let call : ModelCall := ⟨request.url, options⟩
      match model request.url options with
      | .ok result =>
          { response := .ok ⟨result.text, result.language, result.segments⟩
            tasks := []
            modelCalls := [call] }
      | .error e =>
          { response := .httpError 500 ("Transcription failed: " ++ e)
            tasks := []
            modelCalls := [call] }

/-- Raw inbound fields of POST /transcribe before validation. -/
structure RawRequest where
  url : String
  language : Option String := none
  task : String := "transcribe"
  word_timestamps : Bool := false
  temperature : Rat := 0
  webhook_url : Option String := none
deriving DecidableEq, Repr

/-- The host part of a URL, up to the first path, query or fragment
delimiter, must be non-empty. -/
def hostNonempty (cs : List Char) : Bool :=
  !(cs.takeWhile (fun c => c ≠ '/' && c ≠ '?' && c ≠ '#')).isEmpty

/-- Modelled from the spec: pydantic's `HttpUrl` validation is library
code not in this repository; the spec requires a "well-formed resource
locator (scheme + host at minimum)".  An `http`/`https` scheme followed
by a non-empty host. -/
def isValidHttpUrl (s : String) : Bool :=
  match s.toList with
  | 'h' :: 't' :: 't' :: 'p' :: ':' :: '/' :: '/' :: host => hostNonempty host
  | 'h' :: 't' :: 't' :: 'p' :: 's' :: ':' :: '/' :: '/' :: host => hostNonempty host
  | _ => false

/-- Modelled from the spec: pydantic validation of the request model
(`url: HttpUrl`, `webhook_url: Optional[HttpUrl]`), which runs before
the handler body and fails with a `ValidationError` naming the offending
field.  `language` and `task` are unconstrained strings; `task` in
particular is never checked against its two documented values. -/
def validateRequest (raw : RawRequest) : Except String TranscribeRequest :=
  if !isValidHttpUrl raw.url then .error "url"
  else
    match raw.webhook_url with
    | some wh =>
        if !isValidHttpUrl wh then .error "webhook_url"
        else .ok ⟨raw.url, raw.language, raw.task, raw.word_timestamps,
                  raw.temperature, some wh⟩
    | none =>
        .ok ⟨raw.url, raw.language, raw.task, raw.word_timestamps,
             raw.temperature, none⟩

/-- The full POST /transcribe endpoint: pydantic validation, then the
handler.  A validation failure is returned to the client before the
handler body runs: no model call, no background task. -/
def postTranscribe (model : String → Options → Except String WhisperResult)
    (raw : RawRequest) : HandlerOutput :=
  match validateRequest raw with
  | .error f => { response := .validationError f, tasks := [], modelCalls := [] }
  | .ok request => transcribe_audio model request

/-! ## Concrete sample inputs used by witnesses and counterexamples -/

/-- A model stub that always succeeds. -/
def modelOkSample : String → Options → Except String WhisperResult :=
  fun _ _ => .ok ⟨"hello world", "en", [[("text", "hello world")]]⟩

/-- A model stub that always raises. -/
def modelFailSample : String → Options → Except String WhisperResult :=
  fun _ _ => .error "boom"

/-- A webhook endpoint that accepts the POST. -/
def deliverOkSample : WebhookRequest → Except String Nat :=
  fun _ => .ok 200

/-- A webhook endpoint whose POST raises. -/
def deliverFailSample : WebhookRequest → Except String Nat :=
  fun _ => .error "connection refused"

/-- A validated asynchronous request. -/
def reqAsyncSample : TranscribeRequest :=
  { url := "https://example.com/a.wav"
    webhook_url := some "https://client.example/hook" }

/-- A validated synchronous request. -/
def reqSyncSample : TranscribeRequest :=
  { url := "https://example.com/a.wav" }

/-- A validated request whose language field was supplied as the empty
string. -/
def reqEmptyLangSample : TranscribeRequest :=
  { url := "https://example.com/a.wav", language := some "" }

/-- A raw request whose url is not a well-formed resource locator. -/
def rawBadUrlSample : RawRequest :=
  { url := "not-a-url" }

/-- A raw synchronous request carrying an unrecognized task string. -/
def rawOddTaskSample : RawRequest :=
  { url := "https://example.com/a.wav", task := "summarize" }

/-! ## Claim theorems -/

/-- Claim C1: for every valid request the handler selects the
asynchronous path exactly when `webhook_url` is present.  With a webhook
it returns the acknowledgement body (status "accepted") together with
one scheduled background task, makes no inline model call, and its
output does not depend on the model at all (it does not wait for
transcription).  Without a webhook it invokes the model inline exactly
once and the response is built from that call's completed result. -/
theorem transcribe_selects_async_iff_webhook
    (model : String → Options → Except String WhisperResult)
    (request : TranscribeRequest) :
    (∀ wh, request.webhook_url = some wh →
      transcribe_audio model request =
        { response := .async "accepted"
            "Transcription started, result will be sent to webhook"
          tasks := [⟨request.url, buildOptions request, wh⟩]
          modelCalls := [] }
      ∧ ∀ model2, transcribe_audio model2 request = transcribe_audio model request)
    ∧ (request.webhook_url = none →
      (transcribe_audio model request).modelCalls =
        [⟨request.url, buildOptions request⟩]
      ∧ (∀ result, model request.url (buildOptions request) = .ok result →
          (transcribe_audio model request).response =
            .ok ⟨result.text, result.language, result.segments⟩)) := by
  constructor
  · intro wh hwh
    constructor
    · simp [transcribe_audio, hwh]
    · intro model2
      simp [transcribe_audio, hwh]
  · intro hnone
    constructor
    · rcases h : model request.url (buildOptions request) with e | result <;>
        simp [transcribe_audio, hnone, h]
    · intro result hres
      simp [transcribe_audio, hnone, hres]

/-- Witness for C1 at a concrete asynchronous request and model. -/
theorem transcribe_selects_async_iff_webhook_witness :
    transcribe_audio modelOkSample reqAsyncSample =
      { response := .async "accepted"
          "Transcription started, result will be sent to webhook"
        tasks := [⟨"https://example.com/a.wav", buildOptions reqAsyncSample,
                   "https://client.example/hook"⟩]
        modelCalls := [] } :=
  ((transcribe_selects_async_iff_webhook modelOkSample reqAsyncSample).1
    "https://client.example/hook" rfl).1

/-- Counterexample to claim C2 as stated: in the request below a
language was supplied (the field is present, holding the empty string),
yet the options bag carries no `language` key. -/
theorem options_language_iff_supplied_cex :
    reqEmptyLangSample.language.isSome = true ∧
    "language" ∉ (buildOptions reqEmptyLangSample).map Prod.fst := by
  refine ⟨rfl, ?_⟩
  have he : "".isEmpty = true := rfl
  simp [reqEmptyLangSample, buildOptions, optStrTruthy, he]

/-- Claim C2 (amended): the options bag's keys are exactly `task`,
`word_timestamps`, `temperature`, plus `language` if and only if a
non-empty language was supplied; `url` and `webhook_url` never occur. -/
theorem options_keys_exact (request : TranscribeRequest) :
    ((buildOptions request).map Prod.fst =
      if optStrTruthy request.language then
        ["task", "word_timestamps", "temperature", "language"]
      else
        ["task", "word_timestamps", "temperature"])
    ∧ "url" ∉ (buildOptions request).map Prod.fst
    ∧ "webhook_url" ∉ (buildOptions request).map Prod.fst := by
  rcases h : optStrTruthy request.language <;>
    simp [buildOptions, h]

/-- Claim C4: a request whose url is not a well-formed resource locator
is rejected by validation naming the `url` field; the model is never
invoked and no background task (hence no webhook) is scheduled. -/
theorem invalid_url_rejected
    (model : String → Options → Except String WhisperResult)
    (raw : RawRequest) (h : isValidHttpUrl raw.url = false) :
    postTranscribe model raw =
      { response := .validationError "url", tasks := [], modelCalls := [] } := by
  simp [postTranscribe, validateRequest, h]

/-- Witness for C4 at the concrete malformed url "not-a-url". -/
theorem invalid_url_rejected_witness :
    isValidHttpUrl rawBadUrlSample.url = false ∧
    postTranscribe modelOkSample rawBadUrlSample =
      { response := .validationError "url", tasks := [], modelCalls := [] } :=
  ⟨by decide, invalid_url_rejected modelOkSample rawBadUrlSample (by decide)⟩

/-- Claim C10: a request supplying `language` as the empty string yields
the same options bag as one supplying no language at all — the
truthiness test drops the falsy empty string, so no `language` key is
passed and the model auto-detects. -/
theorem empty_language_omitted (request : TranscribeRequest)
    (h : request.language = some "") :
    buildOptions request = buildOptions { request with language := none }
    ∧ "language" ∉ (buildOptions request).map Prod.fst := by
  have hopt : optStrTruthy request.language = false := by rw [h]; decide
  have hnone : optStrTruthy none = false := rfl
  constructor
  · simp [buildOptions, hopt, hnone]
  · simp [buildOptions, hopt]

/-- Witness for C10 at a concrete request with an empty language. -/
theorem empty_language_omitted_witness :
    buildOptions reqEmptyLangSample =
      buildOptions { reqEmptyLangSample with language := none }
    ∧ "language" ∉ (buildOptions reqEmptyLangSample).map Prod.fst :=
  empty_language_omitted reqEmptyLangSample rfl

/-! ## Helper lemmas shared across claims -/

/-- `send_webhook` when the POST succeeds: one request, an info log. -/
theorem send_webhook_ok_eq (deliver : WebhookRequest → Except String Nat)
    (wurl : String) (data : Payload) (status : Nat)
    (h : deliver ⟨wurl, data, 10⟩ = .ok status) :
    send_webhook deliver wurl data =
      .ok ([⟨wurl, data, 10⟩],
        [⟨.info, "Webhook sent to " ++ wurl ++ ", status: "
            ++ toString status⟩]) := by
  simp [send_webhook, h]

/-- `send_webhook` when the POST raises: still one request, an error
log, and a normal return. -/
theorem send_webhook_error_eq (deliver : WebhookRequest → Except String Nat)
    (wurl : String) (data : Payload) (e : String)
    (h : deliver ⟨wurl, data, 10⟩ = .error e) :
    send_webhook deliver wurl data =
      .ok ([⟨wurl, data, 10⟩], [⟨.error, "Failed to send webhook: " ++ e⟩]) := by
  simp [send_webhook, h]

/-- `send_webhook` always returns normally, issuing exactly the one
POST with timeout 10. -/
theorem send_webhook_exists (deliver : WebhookRequest → Except String Nat)
    (wurl : String) (data : Payload) :
    ∃ logs, send_webhook deliver wurl data = .ok ([⟨wurl, data, 10⟩], logs) := by
  cases h : deliver ⟨wurl, data, 10⟩ with
  | error e => exact ⟨_, send_webhook_error_eq deliver wurl data e h⟩
  | ok status => exact ⟨_, send_webhook_ok_eq deliver wurl data status h⟩

/-- A non-empty webhook url string is truthy. -/
theorem optStrTruthy_some_ne (wh : String) (hwh : wh ≠ "") :
    optStrTruthy (some wh) = true := by
  have h : wh.isEmpty = false := by
    rcases h : wh.isEmpty
    · rfl
    · exact absurd ((String.isEmpty_iff wh).mp h) hwh
  simp [optStrTruthy, h]

/-- When the model call raises, `process_transcription` runs its
`except` clause. -/
theorem process_transcription_model_error
    (model : String → Options → Except String WhisperResult)
    (deliver : WebhookRequest → Except String Nat)
    (audio_url : String) (options : Options) (webhook_url : Option String)
    (e : String) (he : model audio_url options = .error e) :
    process_transcription model deliver audio_url options webhook_url =
      pt_except deliver ⟨audio_url, options⟩ webhook_url e := by
  simp [process_transcription, he]

/-- The `except` clause with a truthy webhook url: one webhook POST
carrying the error payload, a normal return. -/
theorem pt_except_some_eq (deliver : WebhookRequest → Except String Nat)
    (call : ModelCall) (wh : String) (e : String)
    (htr : optStrTruthy (some wh) = true) :
    ∃ wlogs, pt_except deliver call (some wh) e =
      .ok ⟨[call], [⟨wh, error_data e, 10⟩],
           ⟨.error, "Background transcription error: " ++ e⟩ :: wlogs⟩ := by
  cases hdel : deliver ⟨wh, error_data e, 10⟩ with
  | ok status =>
      refine ⟨[⟨.info, "Webhook sent to " ++ wh ++ ", status: "
          ++ toString status⟩], ?_⟩
      simp [pt_except, htr, send_webhook_ok_eq deliver wh (error_data e) status hdel]
  | error e2 =>
      refine ⟨[⟨.error, "Failed to send webhook: " ++ e2⟩], ?_⟩
      simp [pt_except, htr, send_webhook_error_eq deliver wh (error_data e) e2 hdel]

/-- The `except` clause always returns normally. -/
theorem pt_except_exists (deliver : WebhookRequest → Except String Nat)
    (call : ModelCall) (webhook_url : Option String) (e : String) :
    ∃ out, pt_except deliver call webhook_url e = .ok out := by
  by_cases htr : optStrTruthy webhook_url = true
  · cases hdel : deliver ⟨webhook_url.getD "", error_data e, 10⟩ with
    | ok status =>
        refine ⟨⟨[call], [⟨webhook_url.getD "", error_data e, 10⟩],
          ⟨.error, "Background transcription error: " ++ e⟩ ::
            [⟨.info, "Webhook sent to " ++ webhook_url.getD "" ++ ", status: "
                ++ toString status⟩]⟩, ?_⟩
        simp [pt_except, htr,
          send_webhook_ok_eq deliver (webhook_url.getD "") (error_data e) status hdel]
    | error e2 =>
        refine ⟨⟨[call], [⟨webhook_url.getD "", error_data e, 10⟩],
          ⟨.error, "Background transcription error: " ++ e⟩ ::
            [⟨.error, "Failed to send webhook: " ++ e2⟩]⟩, ?_⟩
        simp [pt_except, htr,
          send_webhook_error_eq deliver (webhook_url.getD "") (error_data e) e2 hdel]
  · refine ⟨⟨[call], [], [⟨.error, "Background transcription error: " ++ e⟩]⟩, ?_⟩
    simp [pt_except, htr]

/-- `process_transcription` when the model succeeds and the webhook url
is truthy: one webhook POST carrying the completed payload, a normal
return. -/
theorem process_transcription_ok_some_eq
    (model : String → Options → Except String WhisperResult)
    (deliver : WebhookRequest → Except String Nat)
    (audio_url : String) (options : Options) (wh : String)
    (result : WhisperResult)
    (htr : optStrTruthy (some wh) = true)
    (hres : model audio_url options = .ok result) :
    ∃ logs, process_transcription model deliver audio_url options (some wh) =
      .ok ⟨[⟨audio_url, options⟩], [⟨wh, webhook_data result, 10⟩], logs⟩ := by
  cases hdel : deliver ⟨wh, webhook_data result, 10⟩ with
  | ok status =>
      refine ⟨[⟨.info, "Background transcription started for: " ++ audio_url⟩,
        ⟨.info, "Background transcription completed. Language: "
            ++ result.language⟩,
        ⟨.info, "Webhook sent to " ++ wh ++ ", status: "
            ++ toString status⟩], ?_⟩
      simp [process_transcription, hres, htr,
        send_webhook_ok_eq deliver wh (webhook_data result) status hdel]
  | error e2 =>
      refine ⟨[⟨.info, "Background transcription started for: " ++ audio_url⟩,
        ⟨.info, "Background transcription completed. Language: "
            ++ result.language⟩,
        ⟨.error, "Failed to send webhook: " ++ e2⟩], ?_⟩
      simp [process_transcription, hres, htr,
        send_webhook_error_eq deliver wh (webhook_data result) e2 hdel]

/-- Claim C3: when the background transcription fails, the error is not
propagated (the job returns normally) and exactly one webhook POST
carrying the error payload is attempted; on success exactly one webhook
POST carrying the completed payload is attempted. -/
theorem background_job_one_webhook
    (model : String → Options → Except String WhisperResult)
    (deliver : WebhookRequest → Except String Nat)
    (audio_url : String) (options : Options) (wh : String) (hwh : wh ≠ "") :
    (∀ e, model audio_url options = .error e →
      ∃ logs, process_transcription model deliver audio_url options (some wh) =
        .ok ⟨[⟨audio_url, options⟩], [⟨wh, error_data e, 10⟩], logs⟩)
    ∧ (∀ result, model audio_url options = .ok result →
      ∃ logs, process_transcription model deliver audio_url options (some wh) =
        .ok ⟨[⟨audio_url, options⟩], [⟨wh, webhook_data result, 10⟩], logs⟩) := by
  have htr := optStrTruthy_some_ne wh hwh
  constructor
  · intro e he
    obtain ⟨wlogs, hpt⟩ := pt_except_some_eq deliver ⟨audio_url, options⟩ wh e htr
    exact ⟨_, by
      rw [process_transcription_model_error model deliver audio_url options
        (some wh) e he]
      exact hpt⟩
  · intro result hres
    obtain ⟨logs, hpt⟩ := process_transcription_ok_some_eq model deliver
      audio_url options wh result htr hres
    exact ⟨logs, hpt⟩

/-- Witness for C3 at a concrete failing model and accepting webhook. -/
theorem background_job_one_webhook_witness :
    ∃ logs,
      process_transcription modelFailSample deliverOkSample
        "https://example.com/a.wav" [] (some "https://client.example/hook") =
      .ok ⟨[⟨"https://example.com/a.wav", []⟩],
           [⟨"https://client.example/hook", error_data "boom", 10⟩], logs⟩ :=
  (background_job_one_webhook modelFailSample deliverOkSample
    "https://example.com/a.wav" [] "https://client.example/hook"
    (by decide)).1 "boom" rfl

/-- Claim C5: a synchronous request whose transcription raises yields an
HTTP 500 whose detail embeds the failure message, with a single model
call (no retry) and no transcription content; on success the response
body carries the result's text, language and segments. -/
theorem sync_error_http500
    (model : String → Options → Except String WhisperResult)
    (request : TranscribeRequest) (h : request.webhook_url = none) :
    (∀ e, model request.url (buildOptions request) = .error e →
      transcribe_audio model request =
        { response := .httpError 500 ("Transcription failed: " ++ e)
          tasks := []
          modelCalls := [⟨request.url, buildOptions request⟩] })
    ∧ (∀ result, model request.url (buildOptions request) = .ok result →
      transcribe_audio model request =
        { response := .ok ⟨result.text, result.language, result.segments⟩
          tasks := []
          modelCalls := [⟨request.url, buildOptions request⟩] }) := by
  constructor
  · intro e he
    simp [transcribe_audio, h, he]
  · intro result hres
    simp [transcribe_audio, h, hres]

/-- Witness for C5 at a concrete synchronous request and failing model. -/
theorem sync_error_http500_witness :
    transcribe_audio modelFailSample reqSyncSample =
      { response := .httpError 500 ("Transcription failed: " ++ "boom")
        tasks := []
        modelCalls := [⟨reqSyncSample.url, buildOptions reqSyncSample⟩] } :=
  (sync_error_http500 modelFailSample reqSyncSample rfl).1 "boom" rfl

/-- Claim C6: the webhook payload delivered by a completed background
job is exactly status/text/language/segments on success — carrying the
model's values unchanged — and exactly status/error on failure, built
and sent once. -/
theorem webhook_payload_exact
    (model : String → Options → Except String WhisperResult)
    (deliver : WebhookRequest → Except String Nat)
    (audio_url : String) (options : Options) (wh : String) (hwh : wh ≠ "") :
    (∀ result, model audio_url options = .ok result →
      ∃ out, process_transcription model deliver audio_url options (some wh) =
          .ok out
        ∧ out.webhookRequests.map WebhookRequest.body =
            [[("status", FieldVal.str "completed"),
              ("text", FieldVal.str result.text),
              ("language", FieldVal.str result.language),
              ("segments", FieldVal.segs result.segments)]])
    ∧ (∀ e, model audio_url options = .error e →
      ∃ out, process_transcription model deliver audio_url options (some wh) =
          .ok out
        ∧ out.webhookRequests.map WebhookRequest.body =
            [[("status", FieldVal.str "error"),
              ("error", FieldVal.str e)]]) := by
  have htr := optStrTruthy_some_ne wh hwh
  constructor
  · intro result hres
    obtain ⟨logs, hpt⟩ := process_transcription_ok_some_eq model deliver
      audio_url options wh result htr hres
    exact ⟨_, hpt, rfl⟩
  · intro e he
    obtain ⟨wlogs, hpt⟩ := pt_except_some_eq deliver ⟨audio_url, options⟩ wh e htr
    refine ⟨⟨[⟨audio_url, options⟩], [⟨wh, error_data e, 10⟩],
      ⟨.error, "Background transcription error: " ++ e⟩ :: wlogs⟩, ?_, ?_⟩
    · rw [process_transcription_model_error model deliver audio_url options
        (some wh) e he]
      exact hpt
    · rfl

/-- Witness for C6 at a concrete succeeding model and webhook. -/
theorem webhook_payload_exact_witness :
    ∃ out, process_transcription modelOkSample deliverOkSample
        "https://example.com/a.wav" [] (some "https://client.example/hook") =
        .ok out
      ∧ out.webhookRequests.map WebhookRequest.body =
          [[("status", FieldVal.str "completed"),
            ("text", FieldVal.str "hello world"),
            ("language", FieldVal.str "en"),
            ("segments", FieldVal.segs [[("text", "hello world")]])]] :=
  (webhook_payload_exact modelOkSample deliverOkSample
    "https://example.com/a.wav" [] "https://client.example/hook"
    (by decide)).1 ⟨"hello world", "en", [[("text", "hello world")]]⟩ rfl

/-- Claim C7: every webhook delivery attempt is a single outbound POST
to the webhook url with a 10 second timeout; when delivery fails the
failure is only logged — still exactly one POST, no retry, and
`send_webhook` returns normally so the failure reaches no caller. -/
theorem send_webhook_bounded_once
    (deliver : WebhookRequest → Except String Nat)
    (wurl : String) (data : Payload) :
    ∃ logs, send_webhook deliver wurl data = .ok ([⟨wurl, data, 10⟩], logs)
      ∧ (∀ e, deliver ⟨wurl, data, 10⟩ = .error e →
          logs = [⟨.error, "Failed to send webhook: " ++ e⟩]) := by
  cases h : deliver ⟨wurl, data, 10⟩ with
  | ok status =>
      refine ⟨_, send_webhook_ok_eq deliver wurl data status h, ?_⟩
      intro e he
      simp at he
  | error e =>
      refine ⟨_, send_webhook_error_eq deliver wurl data e h, ?_⟩
      intro e2 he2
      injection he2 with h2
      rw [h2]

/-- Witness for C7 at a concrete failing delivery. -/
theorem send_webhook_bounded_once_witness :
    ∃ logs, send_webhook deliverFailSample "https://client.example/hook"
        (error_data "boom") =
      .ok ([⟨"https://client.example/hook", error_data "boom", 10⟩], logs)
      ∧ (∀ e, deliverFailSample
            ⟨"https://client.example/hook", error_data "boom", 10⟩ = .error e →
          logs = [⟨.error, "Failed to send webhook: " ++ e⟩]) :=
  send_webhook_bounded_once deliverFailSample "https://client.example/hook"
    (error_data "boom")

/-- Claim C9: `send_webhook` and `process_transcription` are total with
respect to exceptions: whatever the model call and the webhook delivery
do, both functions return normally (`.ok`), so a scheduled background
job never propagates an exception. -/
theorem background_functions_total
    (model : String → Options → Except String WhisperResult)
    (deliver : WebhookRequest → Except String Nat)
    (audio_url : String) (options : Options) (webhook_url : Option String)
    (wurl : String) (data : Payload) :
    (∃ out, send_webhook deliver wurl data = .ok out)
    ∧ (∃ out, process_transcription model deliver audio_url options webhook_url
        = .ok out) := by
  constructor
  · obtain ⟨logs, hsw⟩ := send_webhook_exists deliver wurl data
    exact ⟨_, hsw⟩
  · cases hm : model audio_url options with
    | error e =>
        rw [process_transcription_model_error model deliver audio_url options
          webhook_url e hm]
        exact pt_except_exists deliver ⟨audio_url, options⟩ webhook_url e
    | ok result =>
        by_cases htr : optStrTruthy webhook_url = true
        · cases webhook_url with
          | none => simp [optStrTruthy] at htr
          | some wh =>
              obtain ⟨logs, hpt⟩ := process_transcription_ok_some_eq model
                deliver audio_url options wh result htr hm
              exact ⟨_, hpt⟩
        · refine ⟨⟨[⟨audio_url, options⟩], [],
            [⟨.info, "Background transcription started for: " ++ audio_url⟩,
             ⟨.info, "Background transcription completed. Language: "
                ++ result.language⟩]⟩, ?_⟩
          simp [process_transcription, hm, htr]

/-- Claim C8: validation never inspects `task`: any task string — one of
the two documented values or anything else — passes validation
unchanged, is placed in the options bag, and is forwarded to the model
call (inline for synchronous requests, via the scheduled background
task otherwise). -/
theorem task_passthrough
    (model : String → Options → Except String WhisperResult)
    (raw : RawRequest) (hu : isValidHttpUrl raw.url = true)
    (hw : ∀ wh ∈ raw.webhook_url, isValidHttpUrl wh = true) :
    ∃ request, validateRequest raw = .ok request
      ∧ request.task = raw.task
      ∧ ("task", OptVal.str raw.task) ∈ buildOptions request
      ∧ (raw.webhook_url = none →
          (postTranscribe model raw).modelCalls =
            [⟨raw.url, buildOptions request⟩])
      ∧ (∀ wh, raw.webhook_url = some wh →
          (postTranscribe model raw).tasks =
            [⟨raw.url, buildOptions request, wh⟩]) := by
  cases hnw : raw.webhook_url with
  | none =>
      have hv : validateRequest raw =
          .ok ⟨raw.url, raw.language, raw.task, raw.word_timestamps,
               raw.temperature, none⟩ := by
        simp [validateRequest, hu, hnw]
      refine ⟨_, hv, rfl, ?_, ?_, ?_⟩
      · simp only [buildOptions]
        split <;> simp
      · intro _
        have hp : postTranscribe model raw =
            transcribe_audio model ⟨raw.url, raw.language, raw.task,
              raw.word_timestamps, raw.temperature, none⟩ := by
          simp [postTranscribe, hv]
        rw [hp]
        cases hm : model raw.url (buildOptions ⟨raw.url, raw.language, raw.task,
            raw.word_timestamps, raw.temperature, none⟩) <;>
          simp [transcribe_audio, hm]
      · intro wh hwh
        simp at hwh
  | some wh =>
      have hwv : isValidHttpUrl wh = true :=
        hw wh (by simp [Option.mem_def, hnw])
      have hv : validateRequest raw =
          .ok ⟨raw.url, raw.language, raw.task, raw.word_timestamps,
               raw.temperature, some wh⟩ := by
        simp [validateRequest, hu, hnw, hwv]
      refine ⟨_, hv, rfl, ?_, ?_, ?_⟩
      · simp only [buildOptions]
        split <;> simp
      · intro h0
        simp at h0
      · intro wh2 hwh2
        injection hwh2 with h2
        subst h2
        have hp : postTranscribe model raw =
            transcribe_audio model ⟨raw.url, raw.language, raw.task,
              raw.word_timestamps, raw.temperature, some wh⟩ := by
          simp [postTranscribe, hv]
        rw [hp]
        simp [transcribe_audio]

/-- Witness for C8 at a concrete synchronous request whose task is the
unrecognized string "summarize". -/
theorem task_passthrough_witness :
    isValidHttpUrl rawOddTaskSample.url = true ∧
    ∃ request, validateRequest rawOddTaskSample = .ok request
      ∧ request.task = rawOddTaskSample.task
      ∧ ("task", OptVal.str rawOddTaskSample.task) ∈ buildOptions request
      ∧ (rawOddTaskSample.webhook_url = none →
          (postTranscribe modelOkSample rawOddTaskSample).modelCalls =
            [⟨rawOddTaskSample.url, buildOptions request⟩])
      ∧ (∀ wh, rawOddTaskSample.webhook_url = some wh →
          (postTranscribe modelOkSample rawOddTaskSample).tasks =
            [⟨rawOddTaskSample.url, buildOptions request, wh⟩]) :=
  ⟨by decide, task_passthrough modelOkSample rawOddTaskSample (by decide)
    (by simp [rawOddTaskSample])⟩
